import Mathlib

/-!
Shallow embedding of the PrivacyChain proxy re-encryption core
(app/services/proxy_encryption_service.py, app/services/secure_sharing_service.py,
app/crud/proxy_encryption_crud.py) and proofs about the frozen claims.

Modelling conventions:
* byte strings are `List Nat` with each entry `< 256` where it matters;
* PEM/DER key material is the inductive `ECCKey`: `ECC.import_key` succeeds on
  any well-formed (private or public) PEM and fails on malformed input, key
  export is deterministic and injective, so PEM-string equality is `ECCKey`
  equality and public-key derivation is constructor-level;
* timestamps are `Int` seconds; `datetime.utcnow()` becomes an explicit `now`
  argument, one per request (all `utcnow()` calls inside a single service call
  share it); `timedelta(hours = h)` is `3600 * h`;
* randomness (`get_random_bytes`, `uuid.uuid4`, `generate_salt`) is passed in
  as explicit arguments;
* `hashlib.sha256` and the AES-CBC block cipher are opaque parameters
  (`sha256 : Bytes → Bytes`, `aesEncrypt : key → iv → plaintext → Bytes`):
  no claim depends on their internals, and every theorem quantifies over them;
* Python exceptions are `Except String`; a caught-and-rewrapped exception keeps
  the wrapper message used by the source.
-/

/-- Byte strings (`bytes` in the source). -/
abbrev Bytes := List Nat

/-- PEM/DER-serialisable ECC key material as handled by `Crypto.PublicKey.ECC`:
a private key on P-256, the corresponding public key (derivation happens via
`.public_key()`), or a malformed blob that `ECC.import_key` rejects. Export is
injective, so equality of exported PEM strings is equality of `ECCKey` values. -/
inductive ECCKey where
  | privKey (sk : Nat)
  | pubKey (pk : Nat)
  | malformed (tag : Nat)
deriving DecidableEq, Repr

/-- Model of `ECC.import_key`: succeeds on any well-formed private or public
PEM, raises (`ValueError`) on malformed input. -/
def ECCKey.importKey : ECCKey → Except String ECCKey
  | .malformed _ => .error "Cannot import key"
  | .privKey sk => .ok (.privKey sk)
  | .pubKey pk => .ok (.pubKey pk)

/-- Model of `.public_key()`: derives the public half of a private key and is
the identity on an already-public key. -/
def ECCKey.publicKey : ECCKey → ECCKey
  | .privKey sk => .pubKey sk
  | .pubKey pk => .pubKey pk
  | .malformed tag => .malformed tag

/-- Model of `.export_key(format='DER')`: an injective byte encoding of the
key material (tag byte plus scalar). -/
def ECCKey.derBytes : ECCKey → Bytes
  | .privKey sk => [0, sk]
  | .pubKey pk => [1, pk]
  | .malformed tag => [2, tag]

/-- Model of `base64.b64encode` at the information-bearing level: packs each
3-byte group into four 6-bit values, using `64` as the `'='` padding symbol.
(The final substitution of sextets through the fixed base64 alphabet is a
bijection on symbols and is omitted from the model.) -/
def b64encode : Bytes → Bytes
  | a :: b :: c :: rest =>
      (a / 4) :: ((a % 4) * 16 + b / 16) :: ((b % 16) * 4 + c / 64) :: (c % 64) ::
        b64encode rest
  | [a, b] => [a / 4, (a % 4) * 16 + b / 16, (b % 16) * 4, 64]
  | [a] => [a / 4, (a % 4) * 16, 64, 64]
  | [] => []

/-- Model of `base64.b64decode`, inverse of `b64encode` (padding symbol `64`
marks the short final group). -/
def b64decode : Bytes → Bytes
  | w :: x :: y :: z :: rest =>
      if y = 64 then [w * 4 + x / 16]
      else if z = 64 then [w * 4 + x / 16, (x % 16) * 16 + y / 4]
      else (w * 4 + x / 16) :: ((x % 16) * 16 + y / 4) :: ((y % 4) * 64 + z) ::
        b64decode rest
  | _ => []

/-- PKCS#7 padding to the AES block size, `Crypto.Util.Padding.pad(_, 16)`. -/
def pkcs7pad (bs : Bytes) : Bytes :=
  bs ++ List.replicate (16 - bs.length % 16) (16 - bs.length % 16)

/-- Model of `str.encode()`: code points of the string. -/
def strBytes (s : String) : Bytes := s.data.map Char.toNat

/-- The dictionary returned by `ProxyEncryptionService.encrypt_for_owner`
(also the column set of the `EncryptedData` row persisted from it). -/
structure EncryptedOwnerData where
  encrypted_content : Bytes
  iv : Bytes
  encrypted_key : Bytes
  key_hash : Bytes
  locator : String
  timestamp : Int
  encryption_id : String
deriving DecidableEq, Repr

/-- Shallow embedding of `ProxyEncryptionService.encrypt_for_owner`.
`sha256` and the AES-CBC cipher `aesEncrypt` (key, iv, padded plaintext) are
opaque parameters; `aes_key` and `iv` stand for the `get_random_bytes` draws
and `encryption_id` for `uuid.uuid4()`. As in the source, `encrypted_key` is
the base64 encoding of the raw AES key (source comment: "Simplified - would
be encrypted with public key"). -/
def encrypt_for_owner (sha256 : Bytes → Bytes) (aesEncrypt : Bytes → Bytes → Bytes → Bytes)
    (aes_key iv : Bytes) (encryption_id : String) (now : Int)
    (content : String) (owner_public_key : ECCKey) (locator : String) :
    Except String EncryptedOwnerData :=
  match owner_public_key.importKey with
  | .error e => .error ("Failed to encrypt for owner: " ++ e)
  | .ok owner_key =>
    .ok {
      encrypted_content := b64encode (aesEncrypt aes_key iv (pkcs7pad (strBytes content)))
      iv := b64encode iv
      encrypted_key := b64encode aes_key
      key_hash := sha256 (aes_key ++ owner_key.publicKey.derBytes)
      locator := locator
      timestamp := now
      encryption_id := encryption_id }

/-- The `proxy_data` dictionary built by `generate_proxy_key`. -/
structure ProxyData where
  owner_key_point : Bytes
  recipient_key_point : Bytes
  salt : String
deriving DecidableEq, Repr

/-- Model of `json.dumps(proxy_data, sort_keys=True).encode()`: an injective
serialisation of the three fields (the separator `256` lies outside the byte
range, so field boundaries are unambiguous). -/
def proxyDataBytes (pd : ProxyData) : Bytes :=
  pd.owner_key_point ++ [256] ++ pd.recipient_key_point ++ [256] ++ strBytes pd.salt

/-- The proxy-key dictionary returned by
`ProxyEncryptionService.generate_proxy_key` (the spec's `Capability`).
`revoked_at` is absent (`none`) until `revoke_proxy_key` sets it. -/
structure ProxyKey where
  proxy_id : String
  proxy_key_hash : Bytes
  proxy_data : ProxyData
  locator : String
  owner_public_key : ECCKey
  recipient_public_key : ECCKey
  created_at : Int
  expires_at : Int
  is_revoked : Bool
  revoked_at : Option Int
  salt : String
deriving DecidableEq, Repr

/-- Shallow embedding of `ProxyEncryptionService.generate_proxy_key`
(the spec's `CapabilityIssuer.issue`). `proxy_id` and `salt` stand for
`uuid.uuid4()` / `generate_salt()`. The source performs no validation of
`expiration_hours` and no lookup of any encrypted record: the expiry is
`now + hours` unconditionally. -/
def generate_proxy_key (sha256 : Bytes → Bytes) (proxy_id salt : String) (now : Int)
    (owner_private_key recipient_public_key : ECCKey) (locator : String)
    (expiration_hours : Int) : Except String ProxyKey :=
  match owner_private_key.importKey with
  | .error e => .error ("Failed to generate proxy key: " ++ e)
  | .ok owner_key =>
    match recipient_public_key.importKey with
    | .error e => .error ("Failed to generate proxy key: " ++ e)
    | .ok recipient_key =>
      let proxy_data : ProxyData := {
        owner_key_point := owner_key.publicKey.derBytes
        recipient_key_point := recipient_key.derBytes
        salt := salt }
      .ok {
        proxy_id := proxy_id
        proxy_key_hash := sha256 (proxyDataBytes proxy_data)
        proxy_data := proxy_data
        locator := locator
        owner_public_key := owner_key.publicKey
        recipient_public_key := recipient_public_key
        created_at := now
        expires_at := now + 3600 * expiration_hours
        is_revoked := false
        revoked_at := none
        salt := salt }

/-- The dictionary returned by `ProxyEncryptionService.re_encrypt_data`
(the spec's `RecipientPackage`). -/
structure ReEncryptedData where
  re_encrypted_content : Bytes
  iv : Bytes
  proxy_id : String
  original_encryption_id : String
  recipient_public_key : ECCKey
  locator : String
  re_encrypted_at : Int
  re_encryption_id : String
deriving DecidableEq, Repr

/-- Shallow embedding of `ProxyEncryptionService.re_encrypt_data`: checks
revocation, expiry and locator agreement, then copies the owner ciphertext
unchanged (source comment: "simplified transformation") under a fresh iv. -/
def re_encrypt_data (new_iv : Bytes) (re_encryption_id : String) (now : Int)
    (encrypted_data : EncryptedOwnerData) (proxy_key : ProxyKey) :
    Except String ReEncryptedData :=
  if proxy_key.is_revoked then
    .error "Failed to re-encrypt data: Proxy key has been revoked"
  else if now > proxy_key.expires_at then
    .error "Failed to re-encrypt data: Proxy key has expired"
  else if encrypted_data.locator ≠ proxy_key.locator then
    .error "Failed to re-encrypt data: Locator mismatch between data and proxy key"
  else
    .ok {
      re_encrypted_content := encrypted_data.encrypted_content
      iv := b64encode new_iv
      proxy_id := proxy_key.proxy_id
      original_encryption_id := encrypted_data.encryption_id
      recipient_public_key := proxy_key.recipient_public_key
      locator := proxy_key.locator
      re_encrypted_at := now
      re_encryption_id := re_encryption_id }

/-- The subset of a re-encrypted-data dictionary that
`decrypt_for_recipient` actually reads. -/
structure ReEncryptedView where
  re_encrypted_content : Bytes
  locator : String
deriving DecidableEq, Repr

/-- Projection of a full re-encryption package to the fields read by
`decrypt_for_recipient`. -/
def ReEncryptedData.view (re : ReEncryptedData) : ReEncryptedView :=
  { re_encrypted_content := re.re_encrypted_content, locator := re.locator }

/-- The dictionary returned by `decrypt_for_recipient`. -/
structure DecryptedResult where
  decrypted_content : String
  locator : String
  decrypted_at : Int
deriving DecidableEq, Repr

/-- Shallow embedding of `ProxyEncryptionService.decrypt_for_recipient`:
imports the caller's key (failing only on malformed key material),
base64-decodes the ciphertext, and returns the hardcoded placeholder string
(source comment: "For this simplified implementation, we'll return a
placeholder"). The supplied key is never compared against the intended
recipient and never used for any decryption. -/
def decrypt_for_recipient (now : Int) (re_encrypted_data : ReEncryptedView)
    (recipient_private_key : ECCKey) : Except String DecryptedResult :=
  match recipient_private_key.importKey with
  | .error e => .error ("Failed to decrypt for recipient: " ++ e)
  | .ok _recipient_key =>
    let _encrypted_content := b64decode re_encrypted_data.re_encrypted_content
    .ok {
      decrypted_content := "[DECRYPTED_CONTENT_PLACEHOLDER]"
      locator := re_encrypted_data.locator
      decrypted_at := now }

/-- Shallow embedding of `ProxyEncryptionService.revoke_proxy_key`.
The source mutates the passed dictionary; the model returns the updated
proxy key together with the `{"revoked": True}` result. Each call
unconditionally overwrites `revoked_at` with its own timestamp. -/
def revoke_proxy_key (now : Int) (proxy_key : ProxyKey) (owner_private_key : ECCKey) :
    Except String (ProxyKey × Bool) :=
  match owner_private_key.importKey with
  | .error e => .error ("Failed to revoke proxy key: " ++ e)
  | .ok owner_key =>
    if proxy_key.owner_public_key ≠ owner_key.publicKey then
      .error "Failed to revoke proxy key: Unauthorized: Only data owner can revoke proxy keys"
    else
      .ok ({ proxy_key with is_revoked := true, revoked_at := some now }, true)

/-- An untrusted proxy-key dictionary as consumed by
`verify_proxy_key_validity` (`Dict[str, Any]` in the source): each field may
be missing (`none`, a `KeyError` on access); `expires_at` may additionally be
present but unparsable by `datetime.fromisoformat` (`some none`). The
transform data and its hash are carried so that tampering is representable. -/
structure ProxyKeyDict where
  is_revoked : Option Bool
  expires_at : Option (Option Int)
  proxy_data : Option ProxyData
  proxy_key_hash : Option Bytes
deriving DecidableEq, Repr

/-- The dictionary returned by `verify_proxy_key_validity`. -/
structure VerifyResult where
  valid : Bool
  reason : Option String
deriving DecidableEq, Repr

/-- Shallow embedding of `ProxyEncryptionService.verify_proxy_key_validity`
(the spec's `checkValidity`). The body reads only `is_revoked` and
`expires_at`; the surrounding `try/except` turns any raised `KeyError` or
parse failure into a `valid=False` result with a `verification_error` reason,
so the modelled function is total like the source. -/
def verify_proxy_key_validity (now : Int) (proxy_key : ProxyKeyDict) : VerifyResult :=
  match proxy_key.is_revoked with
  | none => { valid := false, reason := some "verification_error: KeyError" }
  | some true => { valid := false, reason := some "revoked" }
  | some false =>
    match proxy_key.expires_at with
    | none => { valid := false, reason := some "verification_error: KeyError" }
    | some none => { valid := false, reason := some "verification_error: Invalid isoformat string" }
    | some (some expiration) =>
      if now > expiration then { valid := false, reason := some "expired" }
      else { valid := true, reason := none }

/-- The dictionary view of a well-formed in-memory proxy key, as passed to
`verify_proxy_key_validity` by callers holding a `generate_proxy_key` result. -/
def ProxyKey.toDict (pk : ProxyKey) : ProxyKeyDict :=
  { is_revoked := some pk.is_revoked
    expires_at := some (some pk.expires_at)
    proxy_data := some pk.proxy_data
    proxy_key_hash := some pk.proxy_key_hash }

/-- The dictionary returned by `create_secure_share`. -/
structure SecureSharePackage where
  share_id : String
  locator : String
  encrypted_data : EncryptedOwnerData
  proxy_key : ProxyKey
  re_encrypted_data : ReEncryptedData
  created_at : Int
deriving DecidableEq, Repr

/-- Shallow embedding of `ProxyEncryptionService.create_secure_share`
(the spec's `ShareOrchestrator.createShare` at the service level): derive the
owner public key, encrypt for the owner, issue the proxy key, re-encrypt for
the recipient, and bundle the three dictionaries. -/
def create_secure_share (sha256 : Bytes → Bytes) (aesEncrypt : Bytes → Bytes → Bytes → Bytes)
    (aes_key iv new_iv : Bytes)
    (encryption_id proxy_id salt re_encryption_id share_id : String) (now : Int)
    (content : String) (locator : String)
    (owner_private_key recipient_public_key : ECCKey) (expiration_hours : Int) :
    Except String SecureSharePackage :=
  match owner_private_key.importKey with
  | .error e => .error ("Failed to create secure share: " ++ e)
  | .ok owner_key =>
    match encrypt_for_owner sha256 aesEncrypt aes_key iv encryption_id now
        content owner_key.publicKey locator with
    | .error e => .error ("Failed to create secure share: " ++ e)
    | .ok encrypted_data =>
      match generate_proxy_key sha256 proxy_id salt now
          owner_private_key recipient_public_key locator expiration_hours with
      | .error e => .error ("Failed to create secure share: " ++ e)
      | .ok proxy_key =>
        match re_encrypt_data new_iv re_encryption_id now encrypted_data proxy_key with
        | .error e => .error ("Failed to create secure share: " ++ e)
        | .ok red =>
          .ok {
            share_id := share_id
            locator := locator
            encrypted_data := encrypted_data
            proxy_key := proxy_key
            re_encrypted_data := red
            created_at := now }

/-- A row of the `proxy_keys` table (`app/models/proxy_encryption.py`). -/
structure DBProxyKey where
  proxy_id : String
  locator : String
  owner_public_key : ECCKey
  recipient_public_key : ECCKey
  proxy_key_hash : Bytes
  proxy_data : ProxyData
  salt : String
  created_at : Int
  expires_at : Int
  is_revoked : Bool
  revoked_at : Option Int
deriving DecidableEq, Repr

/-- A row of the `encrypted_data` table. The service dictionary carries no
`owner_public_key` entry, so `EncryptedDataCRUD.create_encrypted_data` stores
the `.get(..., "")` default, modelled as `none`. -/
structure DBEncryptedData where
  encryption_id : String
  locator : String
  owner_public_key : Option ECCKey
  encrypted_content : Bytes
  iv : Bytes
  encrypted_key : Bytes
  key_hash : Bytes
  created_at : Int
deriving DecidableEq, Repr

/-- A row of the `re_encrypted_data` table. -/
structure DBReEncryptedData where
  re_encryption_id : String
  original_encryption_id : String
  proxy_id : String
  locator : String
  recipient_public_key : ECCKey
  re_encrypted_content : Bytes
  iv : Bytes
  created_at : Int
deriving DecidableEq, Repr

/-- A row of the `share_records` table. -/
structure DBShareRecord where
  share_id : String
  locator : String
  owner_public_key : ECCKey
  recipient_public_key : ECCKey
  encryption_id : String
  proxy_id : String
  re_encryption_id : String
  created_at : Int
  is_active : Bool
deriving DecidableEq, Repr

/-- A tracking row, reduced to the two columns `create_data_share` reads. -/
structure TrackingRecord where
  locator : String
  canonical_data : String
deriving DecidableEq, Repr

/-- The durable store visible to the sharing workflow: the relevant tables as
ordered row lists (query order of the SQLAlchemy session). -/
structure DBState where
  tracking : List TrackingRecord
  proxy_keys : List DBProxyKey
  encrypted_data : List DBEncryptedData
  re_encrypted_data : List DBReEncryptedData
  share_records : List DBShareRecord
deriving DecidableEq, Repr

/-- Shallow embedding of `ProxyKeyCRUD.create_proxy_key`: insert one row built
from the service dictionary. -/
def ProxyKeyCRUD.create_proxy_key (db : List DBProxyKey) (p : ProxyKey) : List DBProxyKey :=
  db ++ [{
    proxy_id := p.proxy_id
    locator := p.locator
    owner_public_key := p.owner_public_key
    recipient_public_key := p.recipient_public_key
    proxy_key_hash := p.proxy_key_hash
    proxy_data := p.proxy_data
    salt := p.salt
    created_at := p.created_at
    expires_at := p.expires_at
    is_revoked := p.is_revoked
    revoked_at := none }]

/-- Shallow embedding of `ProxyKeyCRUD.revoke_proxy_key`: fetch the first row
with the given id (`.first()`), set `is_revoked` and overwrite `revoked_at`
with the current time; a missing row is a silent no-op. -/
def ProxyKeyCRUD.revoke_proxy_key (now : Int) :
    List DBProxyKey → String → List DBProxyKey
  | [], _ => []
  | r :: rs, proxy_id =>
    if r.proxy_id = proxy_id then
      { r with is_revoked := true, revoked_at := some now } :: rs
    else
      r :: ProxyKeyCRUD.revoke_proxy_key now rs proxy_id

/-- The row predicate of `ProxyKeyCRUD.revoke_all_proxy_keys_for_locator`:
same locator, same owner public key, not yet revoked. -/
def revokeAllMatches (locator : String) (owner_public_key : ECCKey) (r : DBProxyKey) : Prop :=
  r.locator = locator ∧ r.owner_public_key = owner_public_key ∧ r.is_revoked = false

instance (locator : String) (owner_public_key : ECCKey) (r : DBProxyKey) :
    Decidable (revokeAllMatches locator owner_public_key r) := by
  unfold revokeAllMatches
  infer_instance

/-- Shallow embedding of `ProxyKeyCRUD.revoke_all_proxy_keys_for_locator`:
one bulk `UPDATE` setting `is_revoked`/`revoked_at` on every row matching
locator AND owner AND not-yet-revoked, returning the matched-row count. -/
def ProxyKeyCRUD.revoke_all_proxy_keys_for_locator (now : Int) (db : List DBProxyKey)
    (locator : String) (owner_public_key : ECCKey) : List DBProxyKey × Nat :=
  (db.map fun r =>
      if revokeAllMatches locator owner_public_key r then
        { r with is_revoked := true, revoked_at := some now }
      else r,
   db.countP fun r => decide (revokeAllMatches locator owner_public_key r))

/-- Shallow embedding of `EncryptedDataCRUD.create_encrypted_data`. -/
def EncryptedDataCRUD.create_encrypted_data (now : Int) (db : List DBEncryptedData)
    (e : EncryptedOwnerData) : List DBEncryptedData :=
  db ++ [{
    encryption_id := e.encryption_id
    locator := e.locator
    owner_public_key := none
    encrypted_content := e.encrypted_content
    iv := e.iv
    encrypted_key := e.encrypted_key
    key_hash := e.key_hash
    created_at := now }]

/-- Shallow embedding of `ReEncryptedDataCRUD.create_re_encrypted_data`. -/
def ReEncryptedDataCRUD.create_re_encrypted_data (now : Int) (db : List DBReEncryptedData)
    (re : ReEncryptedData) : List DBReEncryptedData :=
  db ++ [{
    re_encryption_id := re.re_encryption_id
    original_encryption_id := re.original_encryption_id
    proxy_id := re.proxy_id
    locator := re.locator
    recipient_public_key := re.recipient_public_key
    re_encrypted_content := re.re_encrypted_content
    iv := re.iv
    created_at := now }]

/-- The service-level dictionary rebuilt from a stored `EncryptedData` row in
`create_data_share` (lines 147-155 of the source). -/
def DBEncryptedData.view (row : DBEncryptedData) : EncryptedOwnerData :=
  { encrypted_content := row.encrypted_content
    iv := row.iv
    encrypted_key := row.encrypted_key
    key_hash := row.key_hash
    locator := row.locator
    timestamp := row.created_at
    encryption_id := row.encryption_id }

/-- The dictionary returned by `SecureSharingService.get_shared_data`. -/
structure SharedDataResult where
  share_id : String
  locator : String
  decrypted_content : String
  accessed_at : Int
  proxy_id : String
deriving DecidableEq, Repr

/-- Shallow embedding of `SecureSharingService.get_shared_data` (the spec's
`accessShare`): resolve the share record, require it active, require the
referenced proxy key present, unrevoked and unexpired, fetch the re-encrypted
rows for the proxy, and delegate to `decrypt_for_recipient`. At no point is
the caller's key compared against the share's recipient. -/
def get_shared_data (now : Int) (db : DBState) (share_id : String)
    (recipient_private_key : ECCKey) : Except String SharedDataResult :=
  match db.share_records.find? (fun s => s.share_id == share_id) with
  | none => .error "Share record not found"
  | some share =>
    if share.is_active = false then .error "Share has been deactivated"
    else
      match db.proxy_keys.find? (fun p => p.proxy_id == share.proxy_id) with
      | none => .error "Proxy key has been revoked"
      | some pkr =>
        if pkr.is_revoked then .error "Proxy key has been revoked"
        else if now > pkr.expires_at then .error "Proxy key has expired"
        else
          match db.re_encrypted_data.filter (fun r => r.proxy_id == share.proxy_id) with
          | [] => .error "Re-encrypted data not found"
          | re :: _ =>
            match decrypt_for_recipient now
                ⟨re.re_encrypted_content, re.locator⟩ recipient_private_key with
            | .error e => .error e
            | .ok d =>
              .ok {
                share_id := share_id
                locator := share.locator
                decrypted_content := d.decrypted_content
                accessed_at := now
                proxy_id := share.proxy_id }

/-- Shallow embedding of `SecureSharingService.create_data_share` (the spec's
`ShareOrchestrator.createShare` over the durable store). Returns the store
state after the call together with the outcome; every CRUD `create` commits
immediately, so rows written before a failure stay written.

The source's share-record step is unreachable: the function body contains
`import uuid` on line 185, which makes `uuid` a local name, while line 176
reads `uuid.uuid4()` before that import has run, so CPython raises
`UnboundLocalError` on every execution that reaches the share-record
construction. The model reproduces this as a final failure after the
re-encrypted row has been committed. -/
def create_data_share (sha256 : Bytes → Bytes) (aesEncrypt : Bytes → Bytes → Bytes → Bytes)
    (aes_key iv new_iv : Bytes) (encryption_id proxy_id salt re_encryption_id : String)
    (now : Int) (db : DBState) (locator : String)
    (owner_private_key recipient_public_key : ECCKey) (expiration_hours : Int) :
    DBState × Except String Unit :=
  match db.tracking.filter (fun t => t.locator == locator) with
  | [] => (db, .error ("No data found for locator: " ++ locator))
  | latest_record :: _ =>
    let step2 : DBState × Except String EncryptedOwnerData :=
      match db.encrypted_data.filter (fun e => e.locator == locator) with
      | [] =>
        match owner_private_key.importKey with
        | .error e => (db, .error e)
        | .ok key =>
          match encrypt_for_owner sha256 aesEncrypt aes_key iv encryption_id now
              latest_record.canonical_data key.publicKey locator with
          | .error e => (db, .error e)
          | .ok ed =>
            ({ db with encrypted_data :=
                 EncryptedDataCRUD.create_encrypted_data now db.encrypted_data ed },
             .ok ed)
      | row :: _ => (db, .ok row.view)
    match step2 with
    | (db1, .error e) => (db1, .error e)
    | (db1, .ok encrypted_data) =>
      match generate_proxy_key sha256 proxy_id salt now
          owner_private_key recipient_public_key locator expiration_hours with
      | .error e => (db1, .error e)
      | .ok proxy_key =>
        let db2 := { db1 with proxy_keys :=
          ProxyKeyCRUD.create_proxy_key db1.proxy_keys proxy_key }
        match re_encrypt_data new_iv re_encryption_id now encrypted_data proxy_key with
        | .error e => (db2, .error e)
        | .ok red =>
          let db3 := { db2 with re_encrypted_data :=
            ReEncryptedDataCRUD.create_re_encrypted_data now db2.re_encrypted_data red }
          (db3, .error "UnboundLocalError: cannot access local variable uuid where it is not associated with a value")

/-- Unfolding lemma for `b64decode` on a doubly padded final group. -/
theorem b64decode_pad2 (w x : Nat) : b64decode [w, x, 64, 64] = [w * 4 + x / 16] := rfl

/-- Base64 is a plain reversible encoding: decoding recovers every byte string
whose entries are genuine bytes. -/
theorem b64decode_b64encode :
    ∀ bs : Bytes, (∀ b ∈ bs, b < 256) → b64decode (b64encode bs) = bs
  | [], _ => rfl
  | [a], _ => by
      show b64decode [a / 4, (a % 4) * 16, 64, 64] = [a]
      rw [b64decode_pad2]
      simp only [List.cons.injEq, and_true]
      omega
  | [a, b], h => by
      have hb : b < 256 := h b (by simp)
      show b64decode [a / 4, (a % 4) * 16 + b / 16, (b % 16) * 4, 64] = [a, b]
      simp only [b64decode]
      rw [if_neg (by omega), if_pos trivial]
      simp only [List.cons.injEq, and_true]
      omega
  | a :: b :: c :: rest, h => by
      have ha : a < 256 := h a (by simp)
      have hb : b < 256 := h b (by simp)
      have hc : c < 256 := h c (by simp)
      have ih := b64decode_b64encode rest (fun x hx => h x (by simp [hx]))
      simp only [b64encode, b64decode]
      rw [if_neg (by omega), if_neg (by omega)]
      rw [ih]
      simp only [List.cons.injEq, and_true]
      refine ⟨by omega, by omega, by omega⟩

/-- C10: the capability validity check is total and never raises: every input
dictionary, including one with a missing field or an unparsable `expires_at`,
yields a result, `valid=true` exactly when the key is present, unrevoked and
unexpired, and every invalid result carries a reason string. -/
theorem c10_verify_validity_total (now : Int) (pk : ProxyKeyDict) :
    ((verify_proxy_key_validity now pk).valid = true ↔
      pk.is_revoked = some false ∧
        ∃ e : Int, pk.expires_at = some (some e) ∧ now ≤ e) ∧
    (verify_proxy_key_validity now pk).reason.isSome = !(verify_proxy_key_validity now pk).valid := by
  rcases pk with ⟨ir, ea, pd, ph⟩
  rcases ir with _ | ir
  · simp [verify_proxy_key_validity]
  · rcases ir
    · rcases ea with _ | ea
      · simp [verify_proxy_key_validity]
      · rcases ea with _ | e
        · simp [verify_proxy_key_validity]
        · by_cases h : now > e
          · simp only [verify_proxy_key_validity, if_pos h]
            simp
            omega
          · simp only [verify_proxy_key_validity, if_neg h]
            simp
            omega
    · simp [verify_proxy_key_validity]

/-- C8: bulk revocation is scoped to locator AND owner: the update leaves the
table the same length, reports as count exactly the number of non-revoked
rows matching both locator and owner, revokes each such row (stamping
`revoked_at` with the call time), and leaves every other row — in particular
any row with the same locator but a different owner — byte-for-byte
untouched. -/
theorem c8_revoke_all_scoped (now : Int) (db : List DBProxyKey) (locator : String)
    (owner_public_key : ECCKey) :
    (ProxyKeyCRUD.revoke_all_proxy_keys_for_locator now db locator owner_public_key).1.length
        = db.length ∧
    (ProxyKeyCRUD.revoke_all_proxy_keys_for_locator now db locator owner_public_key).2
        = (db.filter fun r => decide (revokeAllMatches locator owner_public_key r)).length ∧
    ∀ i : Nat, ∀ r : DBProxyKey, db[i]? = some r →
      (revokeAllMatches locator owner_public_key r →
        (ProxyKeyCRUD.revoke_all_proxy_keys_for_locator now db locator owner_public_key).1[i]?
          = some { r with is_revoked := true, revoked_at := some now }) ∧
      (¬ revokeAllMatches locator owner_public_key r →
        (ProxyKeyCRUD.revoke_all_proxy_keys_for_locator now db locator owner_public_key).1[i]?
          = some r) := by
  unfold ProxyKeyCRUD.revoke_all_proxy_keys_for_locator
  refine ⟨by simp, by simp [List.countP_eq_length_filter], ?_⟩
  intro i r hi
  constructor
  · intro hm
    rw [List.getElem?_map, hi, Option.map_some', if_pos hm]
  · intro hm
    rw [List.getElem?_map, hi, Option.map_some', if_neg hm]

/-- Witness for C8 at a concrete two-row table: the matching row gets revoked
and stamped, the row with the same locator but a different owner is returned
unchanged, and the count is one. -/
theorem c8_revoke_all_scoped_witness :
    (ProxyKeyCRUD.revoke_all_proxy_keys_for_locator 5
        [⟨"p0", "L", .pubKey 1, .pubKey 9, [1], ⟨[1], [2], "s"⟩, "s", 0, 100, false, none⟩,
         ⟨"p1", "L", .pubKey 2, .pubKey 9, [1], ⟨[1], [2], "s"⟩, "s", 0, 100, false, none⟩]
        "L" (.pubKey 1)).1[0]?
      = some ⟨"p0", "L", .pubKey 1, .pubKey 9, [1], ⟨[1], [2], "s"⟩, "s", 0, 100, true, some 5⟩ ∧
    (ProxyKeyCRUD.revoke_all_proxy_keys_for_locator 5
        [⟨"p0", "L", .pubKey 1, .pubKey 9, [1], ⟨[1], [2], "s"⟩, "s", 0, 100, false, none⟩,
         ⟨"p1", "L", .pubKey 2, .pubKey 9, [1], ⟨[1], [2], "s"⟩, "s", 0, 100, false, none⟩]
        "L" (.pubKey 1)).1[1]?
      = some ⟨"p1", "L", .pubKey 2, .pubKey 9, [1], ⟨[1], [2], "s"⟩, "s", 0, 100, false, none⟩ := by
  have h := c8_revoke_all_scoped 5
    [⟨"p0", "L", .pubKey 1, .pubKey 9, [1], ⟨[1], [2], "s"⟩, "s", 0, 100, false, none⟩,
     ⟨"p1", "L", .pubKey 2, .pubKey 9, [1], ⟨[1], [2], "s"⟩, "s", 0, 100, false, none⟩]
    "L" (.pubKey 1)
  refine ⟨?_, ?_⟩
  · exact (h.2.2 0 _ rfl).1 ⟨rfl, rfl, rfl⟩
  · exact (h.2.2 1 _ rfl).2 (by intro hm; exact absurd hm.2.1 (by decide))

/-- C4 (claim refuted by the code): `verify_proxy_key_validity` never reads
the transform data or its hash, so a capability whose persisted
`proxy_data` has been replaced by arbitrary different bytes still verifies
as fully valid — there is no fingerprint recomputation and no
`FingerprintMismatch` outcome anywhere in the function. -/
theorem c4_tampered_transform_still_valid (now : Int) (pk : ProxyKey) (pd' : ProxyData)
    (_hne : pd' ≠ pk.proxy_data) (hrev : pk.is_revoked = false)
    (hexp : now ≤ pk.expires_at) :
    verify_proxy_key_validity now { pk.toDict with proxy_data := some pd' }
      = { valid := true, reason := none } := by
  simp only [verify_proxy_key_validity, ProxyKey.toDict, hrev]
  rw [if_neg (by omega)]

/-- Witness for C4: a concrete freshly issued capability whose transform data
is afterwards swapped for different bytes still checks out as valid. -/
theorem c4_tampered_transform_still_valid_witness :
    verify_proxy_key_validity 0
        { ProxyKey.toDict ⟨"p", [0], ⟨[1, 1], [1, 2], "s"⟩, "L", .pubKey 1, .pubKey 2,
            0, 86400, false, none, "s"⟩ with proxy_data := some ⟨[9, 9], [1, 2], "s"⟩ }
      = { valid := true, reason := none } :=
  c4_tampered_transform_still_valid 0
    ⟨"p", [0], ⟨[1, 1], [1, 2], "s"⟩, "L", .pubKey 1, .pubKey 2, 0, 86400, false, none, "s"⟩
    ⟨[9, 9], [1, 2], "s"⟩ (by decide) rfl (by decide)

/-- C3 (claim refuted by the code): access never authenticates the caller.
If a share is readable at all, then any caller holding any well-formed
private key — however unrelated to the share's intended recipient — gets
exactly the same successful result: the pipeline from share lookup to
`decrypt_for_recipient` never compares the caller's derived public key with
the capability's `recipient_public_key`, and no `Unauthorized` failure
exists on this path. -/
theorem c3_access_ignores_caller_key (now : Int) (db : DBState) (share_id : String)
    (sk1 sk2 : Nat) (res : SharedDataResult)
    (hok : get_shared_data now db share_id (.privKey sk1) = .ok res) :
    get_shared_data now db share_id (.privKey sk2) = .ok res := by
  unfold get_shared_data at hok ⊢
  rcases hfind : db.share_records.find? (fun s => s.share_id == share_id) with _ | share
  · rw [hfind] at hok; exact absurd hok (by simp)
  · rw [hfind] at hok ⊢
    dsimp only at hok ⊢
    by_cases hact : share.is_active = false
    · rw [if_pos hact] at hok; exact absurd hok (by simp)
    · rw [if_neg hact] at hok ⊢
      rcases hpk : db.proxy_keys.find? (fun p => p.proxy_id == share.proxy_id) with _ | pkr
      · rw [hpk] at hok; exact absurd hok (by simp)
      · rw [hpk] at hok ⊢
        dsimp only at hok ⊢
        by_cases hrev : pkr.is_revoked
        · rw [if_pos hrev] at hok; exact absurd hok (by simp)
        · rw [if_neg hrev] at hok ⊢
          by_cases hexp : now > pkr.expires_at
          · rw [if_pos hexp] at hok; exact absurd hok (by simp)
          · rw [if_neg hexp] at hok ⊢
            rcases hre : db.re_encrypted_data.filter (fun r => r.proxy_id == share.proxy_id)
                with _ | ⟨re, rest⟩
            · rw [hre] at hok; exact absurd hok (by simp)
            · rw [hre] at hok ⊢
              dsimp only at hok ⊢
              simpa [decrypt_for_recipient, ECCKey.importKey] using hok

/-- Witness for C3: a concrete share intended for the holder of `pubKey 9` is
successfully read with the unrelated private key `privKey 2`, returning the
same content the pipeline would hand the intended recipient. -/
theorem c3_access_ignores_caller_key_witness :
    get_shared_data 0
        ⟨[], [⟨"p1", "L", .pubKey 1, .pubKey 9, [0], ⟨[1, 1], [1, 9], "s"⟩, "s", 0, 100, false, none⟩],
         [], [⟨"r1", "e1", "p1", "L", .pubKey 9, [5, 6, 7], [1], 0⟩],
         [⟨"sh", "L", .pubKey 1, .pubKey 9, "e1", "p1", "r1", 0, true⟩]⟩
        "sh" (.privKey 2)
      = .ok ⟨"sh", "L", "[DECRYPTED_CONTENT_PLACEHOLDER]", 0, "p1"⟩ :=
  c3_access_ignores_caller_key 0
    ⟨[], [⟨"p1", "L", .pubKey 1, .pubKey 9, [0], ⟨[1, 1], [1, 9], "s"⟩, "s", 0, 100, false, none⟩],
     [], [⟨"r1", "e1", "p1", "L", .pubKey 9, [5, 6, 7], [1], 0⟩],
     [⟨"sh", "L", .pubKey 1, .pubKey 9, "e1", "p1", "r1", 0, true⟩]⟩
    "sh" 1 2 ⟨"sh", "L", "[DECRYPTED_CONTENT_PLACEHOLDER]", 0, "p1"⟩ rfl

/-- C1 (claim refuted by the code): the end-to-end round trip loses the
plaintext. For every plaintext, owner/recipient key pair and ttl in the
allowed range, `create_secure_share` succeeds, but accessing the resulting
package with the intended recipient's own private key returns the hardcoded
placeholder string — never the original plaintext. -/
theorem c1_round_trip_returns_placeholder (sha256 : Bytes → Bytes)
    (aesEncrypt : Bytes → Bytes → Bytes → Bytes) (aes_key iv new_iv : Bytes)
    (encryption_id proxy_id salt re_encryption_id share_id : String) (now : Int)
    (content locator : String) (osk rsk : Nat) (hours : Int)
    (hlo : 1 ≤ hours) (_hhi : hours ≤ 8760)
    (hcontent : content ≠ "[DECRYPTED_CONTENT_PLACEHOLDER]") :
    ∃ pkg : SecureSharePackage,
      create_secure_share sha256 aesEncrypt aes_key iv new_iv encryption_id proxy_id salt
          re_encryption_id share_id now content locator (.privKey osk) (.pubKey rsk) hours
        = .ok pkg ∧
      decrypt_for_recipient now pkg.re_encrypted_data.view (.privKey rsk)
        = .ok { decrypted_content := "[DECRYPTED_CONTENT_PLACEHOLDER]",
                locator := locator, decrypted_at := now } ∧
      ("[DECRYPTED_CONTENT_PLACEHOLDER]" : String) ≠ content := by
  unfold create_secure_share encrypt_for_owner generate_proxy_key re_encrypt_data
    ECCKey.importKey ECCKey.publicKey
  dsimp only
  rw [if_neg (fun h : (false : Bool) = true => by cases h)]
  rw [if_neg (by omega : ¬ now > now + 3600 * hours)]
  rw [if_neg (fun h : locator ≠ locator => h rfl)]
  dsimp only
  exact ⟨_, rfl, rfl, fun hc => hcontent hc.symm⟩

/-- Witness for C1: sharing the plaintext "secret" with ttl 24h and reading
it back with the intended recipient's private key yields only the
placeholder string. -/
theorem c1_round_trip_returns_placeholder_witness :
    ∃ pkg : SecureSharePackage,
      create_secure_share (fun b => b) (fun _ _ p => p) [7] [8] [9] "e" "p" "s" "r" "sh" 0
          "secret" "L" (.privKey 1) (.pubKey 2) 24 = .ok pkg ∧
      decrypt_for_recipient 0 pkg.re_encrypted_data.view (.privKey 2)
        = .ok { decrypted_content := "[DECRYPTED_CONTENT_PLACEHOLDER]",
                locator := "L", decrypted_at := 0 } ∧
      ("[DECRYPTED_CONTENT_PLACEHOLDER]" : String) ≠ "secret" :=
  c1_round_trip_returns_placeholder (fun b => b) (fun _ _ p => p) [7] [8] [9]
    "e" "p" "s" "r" "sh" 0 "secret" "L" 1 2 24 (by decide) (by decide) (by decide)

/-- C2 (claim refuted by the code): the content-key wrapping is not
asymmetric. For every key of genuine bytes, `encrypt_for_owner` succeeds and
stores as `encrypted_key` merely the base64 encoding of the raw AES content
key, and the row persisted by `EncryptedDataCRUD.create_encrypted_data`
carries the same field — so the public, keyless `b64decode` recovers the raw
content key byte-for-byte from the persisted state. -/
theorem c2_content_key_stored_in_clear (sha256 : Bytes → Bytes)
    (aesEncrypt : Bytes → Bytes → Bytes → Bytes) (aes_key iv : Bytes)
    (hkey : ∀ b ∈ aes_key, b < 256) (encryption_id : String) (now now2 : Int)
    (content : String) (opk : Nat) (locator : String) (db : List DBEncryptedData) :
    ∃ e : EncryptedOwnerData,
      encrypt_for_owner sha256 aesEncrypt aes_key iv encryption_id now content
          (.pubKey opk) locator = .ok e ∧
      b64decode e.encrypted_key = aes_key ∧
      ∃ row ∈ EncryptedDataCRUD.create_encrypted_data now2 db e,
        b64decode row.encrypted_key = aes_key := by
  refine ⟨_, rfl, ?_, ?_⟩
  · exact b64decode_b64encode aes_key hkey
  · exact
      ⟨{ encryption_id := encryption_id
         locator := locator
         owner_public_key := none
         encrypted_content := b64encode (aesEncrypt aes_key iv (pkcs7pad (strBytes content)))
         iv := b64encode iv
         encrypted_key := b64encode aes_key
         key_hash := sha256 (aes_key ++ (ECCKey.pubKey opk).publicKey.derBytes)
         created_at := now2 },
       List.mem_append_right _ (List.mem_singleton.mpr rfl),
       b64decode_b64encode aes_key hkey⟩

/-- Witness for C2: a concrete record sealed under `pubKey 5` with content
key `[1, 2, 3]` persists that key recoverably in the clear. -/
theorem c2_content_key_stored_in_clear_witness :
    ∃ e : EncryptedOwnerData,
      encrypt_for_owner (fun b => b) (fun _ _ p => p) [1, 2, 3] [4] "e" 0 "c"
          (.pubKey 5) "L" = .ok e ∧
      b64decode e.encrypted_key = [1, 2, 3] ∧
      ∃ row ∈ EncryptedDataCRUD.create_encrypted_data 0 [] e,
        b64decode row.encrypted_key = [1, 2, 3] :=
  c2_content_key_stored_in_clear (fun b => b) (fun _ _ p => p) [1, 2, 3] [4]
    (by decide) "e" 0 0 "c" 5 "L" []

/-- Counterexample for C5: on a concrete capability, the first revoke at time
10 stamps `revoked_at = 10`; a second revoke at time 20 succeeds but
overwrites `revoked_at` with 20 — not the first call's timestamp, refuting
the claim that the second call leaves `revoked_at` unchanged. -/
theorem c5_counterexample :
    revoke_proxy_key 10
        ⟨"p", [0], ⟨[1, 1], [1, 2], "s"⟩, "L", .pubKey 1, .pubKey 2, 0, 86400, false, none, "s"⟩
        (.privKey 1)
      = .ok (⟨"p", [0], ⟨[1, 1], [1, 2], "s"⟩, "L", .pubKey 1, .pubKey 2, 0, 86400,
          true, some 10, "s"⟩, true) ∧
    revoke_proxy_key 20
        ⟨"p", [0], ⟨[1, 1], [1, 2], "s"⟩, "L", .pubKey 1, .pubKey 2, 0, 86400, true, some 10, "s"⟩
        (.privKey 1)
      = .ok (⟨"p", [0], ⟨[1, 1], [1, 2], "s"⟩, "L", .pubKey 1, .pubKey 2, 0, 86400,
          true, some 20, "s"⟩, true) ∧
    some (20 : Int) ≠ some (10 : Int) :=
  ⟨rfl, rfl, by decide⟩

/-- C5 as amended: revoking twice with the owner's key succeeds both times
and leaves `revoked=true`, but the second call overwrites `revoked_at` with
its own timestamp instead of preserving the first call's. -/
theorem c5_second_revoke_overwrites_timestamp (t1 t2 : Int) (pk : ProxyKey) (sk : Nat)
    (hown : pk.owner_public_key = .pubKey sk) :
    ∃ pk1 pk2 : ProxyKey,
      revoke_proxy_key t1 pk (.privKey sk) = .ok (pk1, true) ∧
      pk1.is_revoked = true ∧ pk1.revoked_at = some t1 ∧
      revoke_proxy_key t2 pk1 (.privKey sk) = .ok (pk2, true) ∧
      pk2.is_revoked = true ∧ pk2.revoked_at = some t2 := by
  unfold revoke_proxy_key ECCKey.importKey ECCKey.publicKey
  dsimp only
  rw [if_neg (show ¬ pk.owner_public_key ≠ ECCKey.pubKey sk from fun h => h hown)]
  refine ⟨{ pk with is_revoked := true, revoked_at := some t1 },
    { pk with is_revoked := true, revoked_at := some t2 }, rfl, rfl, rfl, ?_, rfl, rfl⟩
  dsimp only
  rw [if_neg (show ¬ pk.owner_public_key ≠ ECCKey.pubKey sk from fun h => h hown)]

/-- Witness for C5's amended statement at the concrete capability owned by
`pubKey 1`, revoked at times 10 and then 20. -/
theorem c5_second_revoke_overwrites_timestamp_witness :
    ∃ pk1 pk2 : ProxyKey,
      revoke_proxy_key 10
          ⟨"p", [0], ⟨[1, 1], [1, 2], "s"⟩, "L", .pubKey 1, .pubKey 2, 0, 86400, false, none, "s"⟩
          (.privKey 1) = .ok (pk1, true) ∧
      pk1.is_revoked = true ∧ pk1.revoked_at = some 10 ∧
      revoke_proxy_key 20 pk1 (.privKey 1) = .ok (pk2, true) ∧
      pk2.is_revoked = true ∧ pk2.revoked_at = some 20 :=
  c5_second_revoke_overwrites_timestamp 10 20
    ⟨"p", [0], ⟨[1, 1], [1, 2], "s"⟩, "L", .pubKey 1, .pubKey 2, 0, 86400, false, none, "s"⟩
    1 rfl

/-- Counterexample for C6: ttl `0` lies outside `[1h, 8760h]`, yet
`generate_proxy_key` happily issues a capability expiring immediately —
there is no `InvalidExpiration` failure. -/
theorem c6_counterexample :
    generate_proxy_key (fun b => b) "p" "s" 0 (.privKey 1) (.pubKey 2) "L" 0
      = .ok ⟨"p", [1, 1, 256, 1, 2, 256, 115], ⟨[1, 1], [1, 2], "s"⟩, "L", .pubKey 1,
          .pubKey 2, 0, 0, false, none, "s"⟩ := by
  rfl

/-- C6 as amended: issuance performs no ttl validation at all. For every
integer ttl — zero, negative, or far beyond a year — and importable keys,
`generate_proxy_key` succeeds and sets `expires_at = now + ttl` hours;
the value is neither rejected nor clamped. -/
theorem c6_no_ttl_validation (sha256 : Bytes → Bytes) (proxy_id salt : String) (now : Int)
    (osk rpk : Nat) (locator : String) (hours : Int) :
    ∃ pk : ProxyKey,
      generate_proxy_key sha256 proxy_id salt now (.privKey osk) (.pubKey rpk) locator hours
        = .ok pk ∧ pk.expires_at = now + 3600 * hours ∧ pk.is_revoked = false :=
  ⟨_, rfl, rfl, rfl⟩

/-- Counterexample for C7: a concrete `create_data_share` run in which
capability issuance fails (malformed recipient key) leaves the encrypted
record it created earlier committed in the store — the composed operation is
not all-or-nothing and nothing is rolled back. -/
theorem c7_counterexample :
    (create_data_share (fun b => b) (fun _ _ p => p) [7] [8] [9] "e1" "p1" "s1" "r1" 0
        ⟨[⟨"L", "data"⟩], [], [], [], []⟩ "L" (.privKey 1) (.malformed 0) 24).2
      = .error "Failed to generate proxy key: Cannot import key" ∧
    (create_data_share (fun b => b) (fun _ _ p => p) [7] [8] [9] "e1" "p1" "s1" "r1" 0
        ⟨[⟨"L", "data"⟩], [], [], [], []⟩ "L" (.privKey 1) (.malformed 0) 24).1.encrypted_data.length
      = 1 ∧
    (create_data_share (fun b => b) (fun _ _ p => p) [7] [8] [9] "e1" "p1" "s1" "r1" 0
        ⟨[⟨"L", "data"⟩], [], [], [], []⟩ "L" (.privKey 1) (.malformed 0) 24).1.share_records
      = [] ∧
    (create_data_share (fun b => b) (fun _ _ p => p) [7] [8] [9] "e1" "p1" "s1" "r1" 0
        ⟨[⟨"L", "data"⟩], [], [], [], []⟩ "L" (.privKey 1) (.malformed 0) 24).1.re_encrypted_data
      = [] :=
  ⟨rfl, rfl, rfl, rfl⟩

/-- C7 as amended: when capability issuance fails, no proxy-key row, no
re-encrypted package and no share record are written (those writes only
happen after successful issuance), and the operation reports a failure; but
the operation is not atomic — the encrypted-data table is left either
unchanged or grown by the record committed earlier in the same failed run,
which is never rolled back. -/
theorem c7_issue_failure_not_rolled_back (sha256 : Bytes → Bytes)
    (aesEncrypt : Bytes → Bytes → Bytes → Bytes) (aes_key iv new_iv : Bytes)
    (encryption_id proxy_id salt re_encryption_id : String) (now : Int) (db : DBState)
    (locator : String) (osk tag : Nat) (hours : Int) :
    (create_data_share sha256 aesEncrypt aes_key iv new_iv encryption_id proxy_id salt
        re_encryption_id now db locator (.privKey osk) (.malformed tag) hours).1.proxy_keys
      = db.proxy_keys ∧
    (create_data_share sha256 aesEncrypt aes_key iv new_iv encryption_id proxy_id salt
        re_encryption_id now db locator (.privKey osk) (.malformed tag) hours).1.re_encrypted_data
      = db.re_encrypted_data ∧
    (create_data_share sha256 aesEncrypt aes_key iv new_iv encryption_id proxy_id salt
        re_encryption_id now db locator (.privKey osk) (.malformed tag) hours).1.share_records
      = db.share_records ∧
    (create_data_share sha256 aesEncrypt aes_key iv new_iv encryption_id proxy_id salt
        re_encryption_id now db locator (.privKey osk) (.malformed tag) hours).2
      ≠ .ok () ∧
    ((create_data_share sha256 aesEncrypt aes_key iv new_iv encryption_id proxy_id salt
        re_encryption_id now db locator (.privKey osk) (.malformed tag) hours).1.encrypted_data
        = db.encrypted_data ∨
      ∃ row, (create_data_share sha256 aesEncrypt aes_key iv new_iv encryption_id proxy_id salt
          re_encryption_id now db locator (.privKey osk) (.malformed tag) hours).1.encrypted_data
        = db.encrypted_data ++ [row]) := by
  unfold create_data_share generate_proxy_key encrypt_for_owner ECCKey.importKey ECCKey.publicKey
  rcases htr : db.tracking.filter (fun t => t.locator == locator) with _ | ⟨t0, trest⟩
  · rw [htr]
    exact ⟨rfl, rfl, rfl, by simp, Or.inl rfl⟩
  · rw [htr]
    dsimp only
    rcases henc : db.encrypted_data.filter (fun e => e.locator == locator) with _ | ⟨row0, erest⟩
    · rw [henc]
      dsimp only
      refine ⟨rfl, rfl, rfl, by simp, Or.inr ⟨_, rfl⟩⟩
    · rw [henc]
      dsimp only
      exact ⟨rfl, rfl, rfl, by simp, Or.inl rfl⟩

/-- Counterexample for C9: issuance consults no encrypted record at all — a
capability for locator "locB" is created without error while the only
encrypted record lives under "locA"; the mismatch only surfaces later, at
use time, when `re_encrypt_data` rejects it. -/
theorem c9_counterexample :
    generate_proxy_key (fun b => b) "p" "s" 0 (.privKey 1) (.pubKey 2) "locB" 24
      = .ok ⟨"p", [1, 1, 256, 1, 2, 256, 115], ⟨[1, 1], [1, 2], "s"⟩, "locB", .pubKey 1,
          .pubKey 2, 0, 86400, false, none, "s"⟩ ∧
    re_encrypt_data [0] "r" 0 ⟨[9], [8], [7], [6], "locA", 0, "e"⟩
        ⟨"p", [1, 1, 256, 1, 2, 256, 115], ⟨[1, 1], [1, 2], "s"⟩, "locB", .pubKey 1,
          .pubKey 2, 0, 86400, false, none, "s"⟩
      = .error "Failed to re-encrypt data: Locator mismatch between data and proxy key" :=
  ⟨rfl, rfl⟩

/-- C9 as amended: cross-locator capabilities are not rejected at creation
time — `generate_proxy_key` never references any encrypted record and
succeeds for every locator and importable key pair; the locator binding is
instead enforced at use time, where `re_encrypt_data` refuses to produce a
package whenever the record's locator differs from the capability's. -/
theorem c9_locator_checked_at_use_time (sha256 : Bytes → Bytes) (proxy_id salt : String)
    (now : Int) (osk rpk : Nat) (locator : String) (hours : Int)
    (new_iv : Bytes) (re_encryption_id : String) (now2 : Int)
    (e : EncryptedOwnerData) (pk : ProxyKey) (hmis : e.locator ≠ pk.locator) :
    (∃ k : ProxyKey, generate_proxy_key sha256 proxy_id salt now (.privKey osk) (.pubKey rpk)
        locator hours = .ok k) ∧
    ∀ red : ReEncryptedData, re_encrypt_data new_iv re_encryption_id now2 e pk ≠ .ok red := by
  refine ⟨⟨_, rfl⟩, ?_⟩
  intro red h
  unfold re_encrypt_data at h
  by_cases h1 : pk.is_revoked = true
  · rw [if_pos h1] at h; exact Except.noConfusion h
  · rw [if_neg h1] at h
    by_cases h2 : now2 > pk.expires_at
    · rw [if_pos h2] at h; exact Except.noConfusion h
    · rw [if_neg h2, if_pos hmis] at h
      exact Except.noConfusion h

/-- Witness for C9's amended statement: a capability under "locB" issues
fine, and re-encrypting the "locA" record with it fails for every candidate
package. -/
theorem c9_locator_checked_at_use_time_witness :
    (∃ k : ProxyKey, generate_proxy_key (fun b => b) "p" "s" 0 (.privKey 1) (.pubKey 2)
        "locB" 24 = .ok k) ∧
    ∀ red : ReEncryptedData,
      re_encrypt_data [0] "r" 0 ⟨[9], [8], [7], [6], "locA", 0, "e"⟩
          ⟨"p", [1, 1, 256, 1, 2, 256, 115], ⟨[1, 1], [1, 2], "s"⟩, "locB", .pubKey 1,
            .pubKey 2, 0, 86400, false, none, "s"⟩
        ≠ .ok red :=
  c9_locator_checked_at_use_time (fun b => b) "p" "s" 0 1 2 "locB" 24 [0] "r" 0
    ⟨[9], [8], [7], [6], "locA", 0, "e"⟩
    ⟨"p", [1, 1, 256, 1, 2, 256, 115], ⟨[1, 1], [1, 2], "s"⟩, "locB", .pubKey 1,
      .pubKey 2, 0, 86400, false, none, "s"⟩
    (by decide)
